import Mathlib

/-!
Verification of the `filesystem` module (filesystem.rs) of the ggez
repository: the `Filesystem` facade over an overlay virtual filesystem.

The facade code lives in `src/filesystem.rs` and is embedded here
directly.  The `vfs` module it builds on (the `VFS` backend contract,
`PhysicalFS`, `ZipFS`, `OverlayFS`) is not part of the provided sources,
so those definitions are modelled from the specification (sections
4.1-4.4 of the design document): a backend is a directory-backed or an
archive-backed store, the overlay is an ordered backend list with
first-match read resolution and first-writable write routing.

Machine-level conventions of the embedding:
* virtual paths are strings, file contents are byte lists;
* `Arc<Mutex<OverlayFS>>` becomes an index (`vfsRef`) into a `World`
  holding all allocated overlay cells, so that clone-sharing is visible;
* fallible operations return `Except`;
* the panic of an `expect` call is modelled by `Option.none`.
-/

abbrev VPath := String

abbrev Bytes := List Nat

/-- A node of a directory tree: a regular file with its content, or a
directory. -/
inductive VNode where
  | file (content : Bytes)
  | dir
deriving DecidableEq

/-- Modelled from the spec: error kinds of the VFS layer (section 7):
NotFound, PermissionDenied, and a catch-all IOFailure. -/
inductive VfsError where
  | notFound (p : VPath)
  | permissionDenied (p : VPath)
  | ioFailure (msg : String)
deriving DecidableEq

/-- Metadata snapshot (spec section 3): is-file, is-directory, size. -/
structure Metadata where
  is_file : Bool
  is_dir : Bool
  size : Nat
deriving DecidableEq

def VNode.metadata : VNode → Metadata
  | .file c => ⟨true, false, c.length⟩
  | .dir => ⟨false, true, 0⟩

/-- Modelled from the spec: the directory-backed store (`PhysicalFS`,
section 4.2) wraps a root directory path and a readonly flag set at
construction; its observable state is the file tree under the root,
represented as a finite association list from virtual paths to nodes. -/
structure PhysicalFS where
  root : String
  readonly : Bool
  store : List (VPath × VNode)
deriving DecidableEq

/-- Modelled from the spec: `PhysicalFS::new(root, readonly)` wraps an
existing real directory subtree (`disk` is whatever is on disk). -/
def PhysicalFS.new (root : String) (readonly : Bool)
    (disk : List (VPath × VNode)) : PhysicalFS :=
  ⟨root, readonly, disk⟩

def PhysicalFS.lookup (fs : PhysicalFS) (p : VPath) : Option VNode :=
  (fs.store.find? (fun e => e.1 == p)).map (·.2)

/-- Replace (or insert) the file at `p` with content `data`. -/
def PhysicalFS.setFile (fs : PhysicalFS) (p : VPath) (data : Bytes) :
    PhysicalFS :=
  { fs with store := (p, .file data) :: fs.store.filter (fun e => !(e.1 == p)) }

/-- Append `data` to the existing file at `p` (the write through an open
handle); no-op when `p` is not a file. -/
def PhysicalFS.appendFile (fs : PhysicalFS) (p : VPath) (data : Bytes) :
    PhysicalFS :=
  match fs.lookup p with
  | some (.file c) => fs.setFile p (c ++ data)
  | _ => fs

/-- Remove the entry at `p`. -/
def PhysicalFS.remove (fs : PhysicalFS) (p : VPath) : PhysicalFS :=
  { fs with store := fs.store.filter (fun e => !(e.1 == p)) }

/-- Does `p` have a child entry in the store (used by `rm` to refuse
removing a non-empty directory)? -/
def PhysicalFS.hasChild (fs : PhysicalFS) (p : VPath) : Bool :=
  fs.store.any (fun e => String.isPrefixOf (p ++ "/") e.1)

/-- Modelled from the spec: one indexed entry of the archive-backed store
(section 4.3): virtual path normalised to a leading `/`, whether it is a
directory entry, and its content (whose length is the uncompressed size). -/
structure ZipEntry where
  path : VPath
  isDir : Bool
  content : Bytes
deriving DecidableEq

/-- Modelled from the spec: the archive-backed store (`ZipFS`, section
4.3): an index built at construction time; always readonly. -/
structure ZipFS where
  index : List ZipEntry
deriving DecidableEq

def ZipFS.lookup (z : ZipFS) (p : VPath) : Option VNode :=
  (z.index.find? (fun e => e.path == p)).map
    (fun e => if e.isDir then .dir else .file e.content)

/-- Modelled from the spec: a backend is either directory-backed or
archive-backed (section 3), satisfying one capability contract. -/
inductive VFSBackend where
  | physical (fs : PhysicalFS)
  | zip (fs : ZipFS)
deriving DecidableEq

def VFSBackend.lookupNode : VFSBackend → VPath → Option VNode
  | .physical fs, p => fs.lookup p
  | .zip z, p => z.lookup p

/-- A backend accepts mutation iff it is a directory-backed store whose
readonly flag is off; archive-backed stores are always readonly. -/
def VFSBackend.writable : VFSBackend → Bool
  | .physical fs => !fs.readonly
  | .zip _ => false

/-- Modelled from the spec: backend `exists` never fails; absence of the
path yields `false` (section 4.1). -/
def VFSBackend.existsB (b : VFSBackend) (p : VPath) : Bool :=
  (b.lookupNode p).isSome

/-- Modelled from the spec: backend `metadata` fails with NotFound if the
path does not resolve (section 4.1). -/
def VFSBackend.metadataB (b : VFSBackend) (p : VPath) :
    Except VfsError Metadata :=
  match b.lookupNode p with
  | some n => .ok n.metadata
  | none => .error (.notFound p)

/-- Modelled from the spec: backend `open` opens for reading only and
fails with NotFound if the path does not resolve or resolves to a
directory (section 4.1).  The opened handle is modelled by the content it
reads. -/
def VFSBackend.openB (b : VFSBackend) (p : VPath) : Except VfsError Bytes :=
  match b.lookupNode p with
  | some (.file c) => .ok c
  | _ => .error (.notFound p)

/-- Modelled from the spec: the overlay is an ordered sequence of
backends; order is search order for reads and priority order for writes
(section 3). -/
structure OverlayFS where
  backends : List VFSBackend
deriving DecidableEq

def OverlayFS.new : OverlayFS := ⟨[]⟩

/-- Append a backend with lowest priority (spec section 4.4). -/
def OverlayFS.push_back (o : OverlayFS) (b : VFSBackend) : OverlayFS :=
  ⟨o.backends ++ [b]⟩

/-- Prepend a backend with highest priority (spec section 4.4). -/
def OverlayFS.push_front (o : OverlayFS) (b : VFSBackend) : OverlayFS :=
  ⟨b :: o.backends⟩

/-- Modelled from the spec: read-style resolution (section 4.4): iterate
backends front-to-back, return the first success; a NotFound from a
backend means "this backend does not have it" and probing continues; any
other error propagates; if every backend reports not-found the overlay
reports NotFound. -/
def readResolve {α : Type} (f : VFSBackend → VPath → Except VfsError α) :
    List VFSBackend → VPath → Except VfsError α
  | [], p => .error (.notFound p)
  | b :: rest, p =>
    match f b p with
    | .ok v => .ok v
    | .error (.notFound _) => readResolve f rest p
    | .error e => .error e

def OverlayFS.openO (o : OverlayFS) (p : VPath) : Except VfsError Bytes :=
  readResolve VFSBackend.openB o.backends p

def OverlayFS.metadataO (o : OverlayFS) (p : VPath) :
    Except VfsError Metadata :=
  readResolve VFSBackend.metadataB o.backends p

/-- Modelled from the spec: overlay `exists` is true iff the path
resolves under some backend; it never fails (sections 4.1 and 7). -/
def OverlayFS.existsO (o : OverlayFS) (p : VPath) : Bool :=
  o.backends.any (·.existsB p)

/-- A handle to a file opened for writing: the index of the backend the
write was routed to, and the path within it. -/
structure FileHandle where
  backend : Nat
  path : VPath
deriving DecidableEq

/-- Modelled from the spec: write routing for `create` (section 4.4):
iterate front-to-back skipping readonly backends; the first writable
backend performs the create-or-truncate (failing if the path is a
directory there); with no writable backend the operation fails with
PermissionDenied.  Returns the updated backend list and the index of the
backend that performed the create. -/
def createAux : List VFSBackend → VPath → Except VfsError (List VFSBackend × Nat)
  | [], p => .error (.permissionDenied p)
  | .physical fs :: rest, p =>
    if fs.readonly then
      (createAux rest p).map (fun r => (VFSBackend.physical fs :: r.1, r.2 + 1))
    else
      match fs.lookup p with
      | some .dir => .error (.ioFailure ("cannot truncate directory " ++ p))
      | _ => .ok (VFSBackend.physical (fs.setFile p []) :: rest, 0)
  | .zip z :: rest, p =>
    (createAux rest p).map (fun r => (VFSBackend.zip z :: r.1, r.2 + 1))

def OverlayFS.createO (o : OverlayFS) (p : VPath) :
    Except VfsError (OverlayFS × FileHandle) :=
  (createAux o.backends p).map (fun r => (⟨r.1⟩, ⟨r.2, p⟩))

/-- Update the element at index `i` of a list. -/
def modifyIdx {α : Type} (f : α → α) : Nat → List α → List α
  | _, [] => []
  | 0, a :: as => f a :: as
  | n + 1, a :: as => a :: modifyIdx f n as

def VFSBackend.writeAt : VFSBackend → VPath → Bytes → VFSBackend
  | .physical fs, p, d => .physical (fs.appendFile p d)
  | .zip z, _, _ => .zip z

/-- Writing `d` through an open write handle appends to the file in the
backend that produced the handle. -/
def OverlayFS.writeHandle (o : OverlayFS) (h : FileHandle) (d : Bytes) :
    OverlayFS :=
  ⟨modifyIdx (fun b => b.writeAt h.path d) h.backend o.backends⟩

/-- Modelled from the spec: write routing for `rm` (sections 4.1 and
4.4): skip any backend that is readonly or does not currently contain the
path; the first eligible backend removes the entry, refusing a non-empty
directory; with no eligible backend the operation fails with NotFound. -/
def rmAux : List VFSBackend → VPath → Except VfsError (List VFSBackend)
  | [], p => .error (.notFound p)
  | .physical fs :: rest, p =>
    if !fs.readonly && (fs.lookup p).isSome then
      if fs.lookup p == some .dir && fs.hasChild p then
        .error (.ioFailure ("directory not empty: " ++ p))
      else
        .ok (VFSBackend.physical (fs.remove p) :: rest)
    else
      (rmAux rest p).map (VFSBackend.physical fs :: ·)
  | .zip z :: rest, p =>
    (rmAux rest p).map (VFSBackend.zip z :: ·)

def OverlayFS.rmO (o : OverlayFS) (p : VPath) : Except VfsError OverlayFS :=
  (rmAux o.backends p).map (⟨·⟩)

/-- Open options (spec section 6): read, write, create, append,
truncate, in any caller-chosen combination. -/
structure OpenOptions where
  read : Bool
  write : Bool
  create : Bool
  append : Bool
  truncate : Bool
deriving DecidableEq

/-- Does the options set imply mutation? -/
def OpenOptions.wantsWrite (o : OpenOptions) : Bool :=
  o.write || o.append || o.create || o.truncate

/-- A file handle opened through `open_options`: which backend produced
it, for which path and options. -/
structure VFile where
  backend : Nat
  path : VPath
  opts : OpenOptions
deriving DecidableEq

/-- Modelled from the spec: `open_options` on the overlay (sections 4.2,
4.4 and 6).  An options set with neither read nor write intent is
rejected.  Read-only options resolve read-style (first match).  Mutating
options route to the first writable backend: with the create flag the
file is created if missing (and truncated when the truncate flag is set),
otherwise the file must already exist there. -/
def openOptsAux : List VFSBackend → VPath → OpenOptions →
    Except VfsError (List VFSBackend × Nat)
  | [], p, _ => .error (.permissionDenied p)
  | .physical fs :: rest, p, opts =>
    if fs.readonly then
      (openOptsAux rest p opts).map
        (fun r => (VFSBackend.physical fs :: r.1, r.2 + 1))
    else
      match fs.lookup p with
      | some .dir => .error (.ioFailure ("is a directory: " ++ p))
      | some (.file c) =>
        .ok (VFSBackend.physical
              (if opts.truncate then fs.setFile p [] else fs.setFile p c)
              :: rest, 0)
      | none =>
        if opts.create then
          .ok (VFSBackend.physical (fs.setFile p []) :: rest, 0)
        else
          .error (.notFound p)
  | .zip z :: rest, p, opts =>
    (openOptsAux rest p opts).map
      (fun r => (VFSBackend.zip z :: r.1, r.2 + 1))

/-- Read-style `open_options`: first backend where the path resolves to a
file; the handle records the producing backend's index. -/
def openReadAux : List VFSBackend → VPath → Except VfsError Nat
  | [], p => .error (.notFound p)
  | b :: rest, p =>
    match b.openB p with
    | .ok _ => .ok 0
    | .error (.notFound _) => (openReadAux rest p).map (· + 1)
    | .error e => .error e

def OverlayFS.open_optionsO (o : OverlayFS) (p : VPath) (opts : OpenOptions) :
    Except VfsError (OverlayFS × VFile) :=
  if opts.wantsWrite then
    (openOptsAux o.backends p opts).map (fun r => (⟨r.1⟩, ⟨r.2, p, opts⟩))
  else if opts.read then
    (openReadAux o.backends p).map (fun i => (o, ⟨i, p, opts⟩))
  else
    .error (.ioFailure "invalid options")

/-- Modelled from the spec: overlay `read_dir` (sections 4.1 and 4.4):
only the first backend whose root contains the directory contributes
entries, one per direct child, re-prefixed as absolute virtual paths.  In
the real system each produced entry is itself fallible (an I/O error can
strike while iterating), so the produced sequence is a list of fallible
entries; the pure model's backends always produce successful entries. -/
def VFSBackend.readDirB (b : VFSBackend) (p : VPath) :
    Except VfsError (List (Except VfsError VPath)) :=
  match b.lookupNode p with
  | some .dir =>
    let allPaths : List VPath :=
      match b with
      | .physical fs => fs.store.map (fun e => e.1)
      | .zip z => z.index.map (fun e => e.path)
    .ok ((allPaths.filter
          (fun q => String.isPrefixOf (p ++ "/") q
                    && !((q.drop (p.length + 1)).contains '/'))).map .ok)
  | _ => .error (.notFound p)

def OverlayFS.readDirO (o : OverlayFS) (p : VPath) :
    Except VfsError (List (Except VfsError VPath)) :=
  readResolve VFSBackend.readDirB o.backends p

/-! ## The `Filesystem` facade (embedded from src/filesystem.rs) -/

/-- Error type of the facade (`GameError` variants relevant to the
filesystem module). -/
inductive GameError where
  | resourceNotFound (p : VPath)
  | resourceLoadError (msg : String)
  | configError (msg : String)
  | vfsErr (e : VfsError)
deriving DecidableEq

/-- How a VFS-layer error surfaces through the facade when passed on
verbatim: a not-found becomes `ResourceNotFound`, anything else is
carried unchanged. -/
def mapVfs : VfsError → GameError
  | .notFound p => .resourceNotFound p
  | e => .vfsErr e

/-- `filesystem.rs` line 51: `const CONFIG_NAME: &str = "/conf.toml"`. -/
def CONFIG_NAME : VPath := "/conf.toml"

/-- The `File` wrapper of `filesystem.rs` (lines 87-90): a wrapper around
a VFS file handle. -/
inductive File where
  | vfsFile (f : VFile)
deriving DecidableEq

/-- The heap of allocated `Arc<Mutex<OverlayFS>>` cells: cloning a
`Filesystem` copies the index into this heap, not the overlay itself. -/
structure World where
  cells : List OverlayFS
deriving DecidableEq

def World.getOv (w : World) (r : Nat) : OverlayFS :=
  w.cells.getD r ⟨[]⟩

def World.setOv (w : World) (r : Nat) (o : OverlayFS) : World :=
  ⟨modifyIdx (fun _ => o) r w.cells⟩

/-- The `Filesystem` struct of `filesystem.rs` (lines 55-61): the shared
overlay (as a heap reference) plus the four remembered root paths. -/
structure Filesystem where
  vfsRef : Nat
  resources_dir : String
  zip_dir : String
  user_config_dir : String
  user_data_dir : String
deriving DecidableEq

/-- `InternalClone for Filesystem` (lines 72-82): the `Arc` is cloned
(sharing the cell), the four path fields are copied by value. -/
def Filesystem.clone (fs : Filesystem) : Filesystem :=
  { vfsRef := fs.vfsRef
    resources_dir := fs.resources_dir
    zip_dir := fs.zip_dir
    user_config_dir := fs.user_config_dir
    user_data_dir := fs.user_data_dir }

/-- The platform directory resolver (external collaborator
`directories::ProjectDirs`): the two directories `_new` reads from it. -/
structure ProjectDirs where
  data_local_dir : String
  config_dir : String
deriving DecidableEq

/-- `Filesystem::_new` (lines 142-214).  External collaborators appear
as parameters: `rootPath` is the executable's directory (current_exe
with the filename popped), `zipExists` is the `resources_zip_path.exists()`
probe, `zipOpen` the outcome of `ZipFS::new` on that archive, `dirs` the
`ProjectDirs::from` result, and `diskRes`/`diskData`/`diskCfg` the
on-disk trees the three physical mounts wrap.  Path join is modelled as
string concatenation with a slash.  The overlay is built by the same
sequence of `push_back` calls as the source and allocated as a fresh
shared cell. -/
def Filesystem.newF (rootPath resourcesDirName resourcesZipName : String)
    (zipExists : Bool) (zipOpen : Except GameError ZipFS)
    (dirs : Option ProjectDirs)
    (diskRes diskData diskCfg : List (VPath × VNode)) (w : World) :
    Except GameError (World × Filesystem) :=
  let resources_path := rootPath ++ "/" ++ resourcesDirName
  let resources_zip_path := rootPath ++ "/" ++ resourcesZipName
  let o1 := OverlayFS.new.push_back
    (.physical (PhysicalFS.new resources_path true diskRes))
  let o2res : Except GameError OverlayFS :=
    if zipExists then zipOpen.map (fun z => o1.push_back (.zip z))
    else .ok o1
  match o2res with
  | .error e => .error e
  | .ok o2 =>
    let o3 := match dirs with
      | some d =>
        (o2.push_back
          (.physical (PhysicalFS.new d.data_local_dir true diskData))).push_back
          (.physical (PhysicalFS.new d.config_dir false diskCfg))
      | none => o2
    let user_data_path := match dirs with
      | some d => d.data_local_dir
      | none => ""
    let user_config_path := match dirs with
      | some d => d.config_dir
      | none => ""
    .ok (⟨w.cells ++ [o3]⟩,
         ⟨w.cells.length, resources_path, resources_zip_path,
          user_config_path, user_data_path⟩)

/-- `Filesystem::open` (lines 222-224). -/
def Filesystem.openF (w : World) (fs : Filesystem) (p : VPath) :
    Except GameError Bytes :=
  ((w.getOv fs.vfsRef).openO p).mapError mapVfs

/-- The error message `open_options` wraps a failure in (lines 238-244):
`format!("Tried to open {:?} but got error: {:?}", path, e)`; the debug
renderings are modelled without their quoting. -/
def VfsError.describe : VfsError → String
  | .notFound p => "NotFound(" ++ p ++ ")"
  | .permissionDenied p => "PermissionDenied(" ++ p ++ ")"
  | .ioFailure m => "IOFailure(" ++ m ++ ")"

def openOptionsMsg (p : VPath) (e : VfsError) : String :=
  "Tried to open " ++ p ++ " but got error: " ++ e.describe

/-- `Filesystem::open_options` (lines 230-245): delegate to the overlay,
wrap the handle in `File::VfsFile` on success and any error in a
`ResourceLoadError` carrying the attempted path and the error. -/
def Filesystem.open_optionsF (w : World) (fs : Filesystem) (p : VPath)
    (opts : OpenOptions) : Except GameError (World × File) :=
  match (w.getOv fs.vfsRef).open_optionsO p opts with
  | .ok (o, f) => .ok (w.setOv fs.vfsRef o, File.vfsFile f)
  | .error e => .error (.resourceLoadError (openOptionsMsg p e))

/-- `Filesystem::create` (lines 249-251). -/
def Filesystem.createF (w : World) (fs : Filesystem) (p : VPath) :
    Except GameError (World × FileHandle) :=
  match (w.getOv fs.vfsRef).createO p with
  | .ok (o, h) => .ok (w.setOv fs.vfsRef o, h)
  | .error e => .error (mapVfs e)

/-- Writing through a handle returned by `createF` (the `io::Write`
implementation of `File`, lines 100-112, landing in the producing
backend). -/
def Filesystem.writeFileF (w : World) (fs : Filesystem) (h : FileHandle)
    (d : Bytes) : World :=
  w.setOv fs.vfsRef ((w.getOv fs.vfsRef).writeHandle h d)

/-- `Filesystem::delete` (lines 261-263). -/
def Filesystem.deleteF (w : World) (fs : Filesystem) (p : VPath) :
    Except GameError World :=
  match (w.getOv fs.vfsRef).rmO p with
  | .ok o => .ok (w.setOv fs.vfsRef o)
  | .error e => .error (mapVfs e)

/-- `Filesystem::exists` (lines 272-274). -/
def Filesystem.existsF (w : World) (fs : Filesystem) (p : VPath) : Bool :=
  (w.getOv fs.vfsRef).existsO p

/-- `Filesystem::is_file` (lines 277-282):
`metadata(path).map(|m| m.is_file()).unwrap_or(false)`. -/
def Filesystem.is_fileF (w : World) (fs : Filesystem) (p : VPath) : Bool :=
  ((((w.getOv fs.vfsRef).metadataO p).map Metadata.is_file).toOption).getD false

/-- `Filesystem::is_dir` (lines 285-290). -/
def Filesystem.is_dirF (w : World) (fs : Filesystem) (p : VPath) : Bool :=
  ((((w.getOv fs.vfsRef).metadataO p).map Metadata.is_dir).toOption).getD false

/-- The consuming map inside `Filesystem::read_dir` (lines 300-303):
every entry of the overlay's iterator is unwrapped with `expect`, so an
erroneous entry panics while consuming.  The panic is modelled as
`none`; `some` carries the fully consumed listing. -/
def readDirConsume : List (Except VfsError VPath) → Option (List VPath)
  | [] => some []
  | e :: rest =>
    match e with
    | .ok v => (readDirConsume rest).map (v :: ·)
    | .error _ => none

/-- `Filesystem::read_dir` (lines 296-304): an `Err` of the overlay call
propagates; an `Ok` yields the iterator whose consumption is modelled by
`readDirConsume`. -/
def Filesystem.read_dirF (w : World) (fs : Filesystem) (p : VPath) :
    Except GameError (Option (List VPath)) :=
  (((w.getOv fs.vfsRef).readDirO p).map readDirConsume).mapError mapVfs

/-- `Filesystem::mount` (lines 345-349): wrap the given real path (with
its on-disk tree) in a `PhysicalFS` with the given readonly flag and
`push_back` it. -/
def Filesystem.mountF (w : World) (fs : Filesystem) (rpath : String)
    (readonly : Bool) (disk : List (VPath × VNode)) : World :=
  w.setOv fs.vfsRef
    ((w.getOv fs.vfsRef).push_back
      (.physical (PhysicalFS.new rpath readonly disk)))

/-- `Filesystem::add_zip_file` (lines 357-362): `ZipFS::from_read` on
the byte source (its outcome is the parameter `zr`); on success the
archive store is `push_back`ed. -/
def Filesystem.add_zip_fileF (w : World) (fs : Filesystem)
    (zr : Except GameError ZipFS) : Except GameError World :=
  match zr with
  | .ok z => .ok (w.setOv fs.vfsRef ((w.getOv fs.vfsRef).push_back (.zip z)))
  | .error e => .error e

/-- `Filesystem::read_config` (lines 367-378).  The external TOML
collaborator `Conf::from_toml_file` is the parameter `fromToml`. -/
def Filesystem.read_configF {Conf : Type}
    (fromToml : Bytes → Except GameError Conf) (w : World)
    (fs : Filesystem) : Except GameError Conf :=
  if Filesystem.is_fileF w fs CONFIG_NAME then
    match Filesystem.openF w fs CONFIG_NAME with
    | .ok bytes => fromToml bytes
    | .error e => .error e
  else
    .error (.configError "Config file not found")

/-- `Filesystem::write_config` (lines 382-394).  The external TOML
collaborator `Conf::to_toml_file` is the parameter `toToml` (it
serializes and writes through the handle, and can itself fail). -/
def Filesystem.write_configF {Conf : Type}
    (toToml : Conf → Except GameError Bytes) (w : World) (fs : Filesystem)
    (c : Conf) : Except GameError World :=
  match Filesystem.createF w fs CONFIG_NAME with
  | .error e => .error e
  | .ok (w1, h) =>
    match toToml c with
    | .error e => .error e
    | .ok bs =>
      let w2 := Filesystem.writeFileF w1 fs h bs
      if Filesystem.is_fileF w2 fs CONFIG_NAME then
        .ok w2
      else
        .error (.configError ("Failed to write config file at " ++ CONFIG_NAME))

/-- A concrete run of `Filesystem::new` used to examine the default
overlay: executable directory `/exe`, default names, an existing (empty)
`resources.zip`, and an available platform-directory resolver. -/
def c1Build : Except GameError (World × Filesystem) :=
  Filesystem.newF "/exe" "resources" "resources.zip" true
    (.ok ⟨[]⟩) (some ⟨"/data", "/config"⟩) [] [] [] ⟨[]⟩

/-- The backends of the default overlay built by `c1Build`. -/
def c1Backends : List VFSBackend :=
  match c1Build with
  | .ok (w, fs) => (w.getOv fs.vfsRef).backends
  | .error _ => []

/-- A world with a single, empty overlay cell (concrete test fixture). -/
def wOne : World := ⟨[⟨[]⟩]⟩

/-- A facade handle pointing at cell 0 (concrete test fixture, with the
remembered paths blank as in the repository's `dummy_fs_for_tests`). -/
def fsOne : Filesystem := ⟨0, "", "", "", ""⟩

/-- A one-entry archive store (concrete test fixture). -/
def zOne : ZipFS := ⟨[⟨"/q.png", false, [1, 2]⟩]⟩

/-- The world after adding `zOne` to `wOne` through `fsOne` (concrete
test fixture). -/
def wZipped : World := wOne.setOv 0 ((wOne.getOv 0).push_back (.zip zOne))

/-- A world whose single overlay has a readonly archive store in front of
a writable directory store (concrete test fixture for the config
round-trip). -/
def wCfg : World :=
  ⟨[⟨[VFSBackend.zip ⟨[]⟩, VFSBackend.physical ⟨"/cfg", false, []⟩]⟩]⟩

/-- `wCfg` after `create` has truncated `/conf.toml` into its writable
directory store (concrete test fixture). -/
def wCfg1 : World :=
  ⟨[⟨[VFSBackend.zip ⟨[]⟩,
      VFSBackend.physical ⟨"/cfg", false, [(CONFIG_NAME, .file [])]⟩]⟩]⟩

/-- A world whose single overlay has one readonly directory store holding
one file (concrete test fixture). -/
def wRead : World :=
  ⟨[⟨[VFSBackend.physical ⟨"/r", true, [("/a.png", .file [7])]⟩]⟩]⟩

/-- A concrete stand-in for the external TOML serializer (`Conf` taken to
be `Nat`). -/
def natToToml (n : Nat) : Except GameError Bytes := .ok [n]

/-- A concrete stand-in for the external TOML parser, inverse to
`natToToml` on its image. -/
def natFromToml : Bytes → Except GameError Nat
  | [n] => .ok n
  | _ => .error (.configError "parse")

/-! ## Helper lemmas -/

theorem modifyIdx_length {α : Type} (f : α → α) :
    ∀ (n : Nat) (l : List α), (modifyIdx f n l).length = l.length := by
  intro n l
  induction l generalizing n with
  | nil => cases n <;> rfl
  | cons a as ih =>
    cases n with
    | zero => rfl
    | succ n => simp [modifyIdx, ih n]

theorem modifyIdx_getD {α : Type} (f : α → α) :
    ∀ (l : List α) (n : Nat), n < l.length → ∀ d,
      (modifyIdx f n l).getD n d = f (l.getD n d) := by
  intro l
  induction l with
  | nil => intro n h; simp at h
  | cons a as ih =>
    intro n h d
    cases n with
    | zero => simp [modifyIdx]
    | succ n => simpa [modifyIdx] using ih n (by simpa using h) d

theorem modifyIdx_append_cons {α : Type} (f : α → α) (x : α) :
    ∀ (l₁ l₂ : List α), modifyIdx f l₁.length (l₁ ++ x :: l₂) = l₁ ++ f x :: l₂
  | [], _ => rfl
  | a :: l₁, l₂ => by simp [modifyIdx, modifyIdx_append_cons f x l₁ l₂]

theorem World.getOv_setOv (w : World) (r : Nat) (o : OverlayFS)
    (h : r < w.cells.length) : (w.setOv r o).getOv r = o := by
  show (modifyIdx (fun _ => o) r w.cells).getD r ⟨[]⟩ = o
  rw [modifyIdx_getD (fun _ => o) w.cells r h]

theorem World.setOv_cells_length (w : World) (r : Nat) (o : OverlayFS) :
    (w.setOv r o).cells.length = w.cells.length :=
  modifyIdx_length _ r w.cells

theorem find?_filter_out {β : Type} (p : VPath) :
    ∀ s : List (VPath × β),
      (s.filter (fun e => !(e.1 == p))).find? (fun e => e.1 == p) = none := by
  intro s
  induction s with
  | nil => rfl
  | cons e s ih =>
    cases h : (e.1 == p) with
    | true =>
      simp only [List.filter_cons, h, Bool.not_true, Bool.false_eq_true,
        if_false]
      exact ih
    | false =>
      simp only [List.filter_cons, h, Bool.not_false, if_true]
      rw [List.find?_cons_of_neg _ (by simp [h]), ih]

theorem PhysicalFS.lookup_setFile (fs : PhysicalFS) (p : VPath) (d : Bytes) :
    (fs.setFile p d).lookup p = some (.file d) := by
  simp [PhysicalFS.lookup, PhysicalFS.setFile, List.find?]

theorem PhysicalFS.lookup_remove (fs : PhysicalFS) (p : VPath) :
    (fs.remove p).lookup p = none := by
  simp [PhysicalFS.lookup, PhysicalFS.remove, find?_filter_out p fs.store]

theorem VFSBackend.metadataB_of_none (b : VFSBackend) (p : VPath)
    (h : b.lookupNode p = none) : b.metadataB p = .error (.notFound p) := by
  simp [VFSBackend.metadataB, h]

theorem VFSBackend.openB_of_none (b : VFSBackend) (p : VPath)
    (h : b.lookupNode p = none) : b.openB p = .error (.notFound p) := by
  simp [VFSBackend.openB, h]

theorem readResolve_append {α : Type} (f : VFSBackend → VPath → Except VfsError α)
    (p : VPath) :
    ∀ pre l, (∀ b ∈ pre, f b p = .error (.notFound p)) →
      readResolve f (pre ++ l) p = readResolve f l p := by
  intro pre
  induction pre with
  | nil => intro l _; rfl
  | cons b pre ih =>
    intro l h
    have hb := h b (by simp)
    have ihl := ih l (fun b' hb' => h b' (by simp [hb']))
    simp [readResolve, hb, ihl]

theorem readResolve_all_notFound {α : Type}
    (f : VFSBackend → VPath → Except VfsError α) (p : VPath)
    (l : List VFSBackend) (h : ∀ b ∈ l, f b p = .error (.notFound p)) :
    readResolve f l p = .error (.notFound p) := by
  simpa using readResolve_append f p l [] h

theorem createAux_decomp (p : VPath) :
    ∀ l : List VFSBackend, (∀ b ∈ l, b.lookupNode p = none) →
      (∃ b ∈ l, b.writable = true) →
      ∃ pre f rest, l = pre ++ VFSBackend.physical f :: rest
        ∧ (∀ b ∈ pre, b.writable = false)
        ∧ f.readonly = false
        ∧ createAux l p
            = .ok (pre ++ VFSBackend.physical (f.setFile p []) :: rest,
                   pre.length) := by
  intro l
  induction l with
  | nil => intro _ hw; simp at hw
  | cons b rest ih =>
    intro habs hw
    cases b with
    | physical f =>
      cases hro : f.readonly with
      | false =>
        refine ⟨[], f, rest, by simp, by simp, hro, ?_⟩
        have hl : f.lookup p = none := by
          simpa [VFSBackend.lookupNode] using
            habs (VFSBackend.physical f) (by simp)
        simp [createAux, hro, hl]
      | true =>
        have hw' : ∃ b ∈ rest, b.writable = true := by
          rcases hw with ⟨b', hb', hwb'⟩
          rcases List.mem_cons.mp hb' with h1 | h2
          · subst h1; simp [VFSBackend.writable, hro] at hwb'
          · exact ⟨b', h2, hwb'⟩
        rcases ih (fun b hb => habs b (by simp [hb])) hw' with
          ⟨pre, f', rest', heq, hpre, hro', hca⟩
        refine ⟨VFSBackend.physical f :: pre, f', rest', by simp [heq], ?_,
          hro', ?_⟩
        · intro b hb
          rcases List.mem_cons.mp hb with h1 | h2
          · subst h1; simp [VFSBackend.writable, hro]
          · exact hpre b h2
        · simp [createAux, hro, hca, Except.map]
    | zip z =>
      have hw' : ∃ b ∈ rest, b.writable = true := by
        rcases hw with ⟨b', hb', hwb'⟩
        rcases List.mem_cons.mp hb' with h1 | h2
        · subst h1; simp [VFSBackend.writable] at hwb'
        · exact ⟨b', h2, hwb'⟩
      rcases ih (fun b hb => habs b (by simp [hb])) hw' with
        ⟨pre, f', rest', heq, hpre, hro', hca⟩
      refine ⟨VFSBackend.zip z :: pre, f', rest', by simp [heq], ?_, hro', ?_⟩
      · intro b hb
        rcases List.mem_cons.mp hb with h1 | h2
        · subst h1; simp [VFSBackend.writable]
        · exact hpre b h2
      · simp [createAux, hca, Except.map]

theorem rmAux_append (p : VPath) :
    ∀ pre l, (∀ b ∈ pre, b.lookupNode p = none) →
      rmAux (pre ++ l) p = (rmAux l p).map (fun r => pre ++ r) := by
  intro pre
  induction pre with
  | nil => intro l _; cases h : rmAux l p <;> simp [h, Except.map]
  | cons b pre ih =>
    intro l habs
    have hb : b.lookupNode p = none := habs b (by simp)
    have ihl := ih l (fun b' hb' => habs b' (by simp [hb']))
    cases b with
    | physical f =>
      have hl : f.lookup p = none := by
        simpa [VFSBackend.lookupNode] using hb
      have hcond : (!f.readonly && (f.lookup p).isSome) = false := by
        rw [hl]; simp
      simp only [List.cons_append, rmAux, hcond, Bool.false_eq_true, if_false]
      simp only [List.append_eq]
      rw [ihl]
      cases h : rmAux l p <;> simp [Except.map]
    | zip z =>
      simp only [List.cons_append, rmAux]
      simp only [List.append_eq]
      rw [ihl]
      cases h : rmAux l p <;> simp [Except.map]

/-- The backend list of the overlay built by `Filesystem.newF`, for any
parameters (the zip open must succeed when the archive file exists). -/
theorem newF_backends (rootPath rdn rzn : String) (zipExists : Bool)
    (zipOpen : Except GameError ZipFS) (z : ZipFS) (dirs : Option ProjectDirs)
    (dR dD dC : List (VPath × VNode)) (w : World)
    (hz : zipExists = true → zipOpen = Except.ok z) :
    ∃ w' fs',
      Filesystem.newF rootPath rdn rzn zipExists zipOpen dirs dR dD dC w
        = .ok (w', fs')
      ∧ (w'.getOv fs'.vfsRef).backends
        = [VFSBackend.physical
             (PhysicalFS.new (rootPath ++ "/" ++ rdn) true dR)]
          ++ (if zipExists then [VFSBackend.zip z] else [])
          ++ (match dirs with
              | some d =>
                [VFSBackend.physical (PhysicalFS.new d.data_local_dir true dD),
                 VFSBackend.physical (PhysicalFS.new d.config_dir false dC)]
              | none => []) := by
  cases zipExists with
  | false =>
    cases dirs with
    | none =>
      refine ⟨_, _, rfl, ?_⟩
      simp [Filesystem.newF, World.getOv, OverlayFS.new, OverlayFS.push_back,
        List.getD_append_right]
    | some d =>
      refine ⟨_, _, rfl, ?_⟩
      simp [Filesystem.newF, World.getOv, OverlayFS.new, OverlayFS.push_back,
        List.getD_append_right]
  | true =>
    rw [hz rfl]
    cases dirs with
    | none =>
      refine ⟨_, _, rfl, ?_⟩
      simp [Filesystem.newF, World.getOv, OverlayFS.new, OverlayFS.push_back,
        List.getD_append_right]
    | some d =>
      refine ⟨_, _, rfl, ?_⟩
      simp [Filesystem.newF, World.getOv, OverlayFS.new, OverlayFS.push_back,
        List.getD_append_right]

/-- C2: `Filesystem::new` builds the default overlay front to back as:
(1) a directory-backed store rooted at `<executable-directory>/resources`;
(2) an archive-backed store over `<executable-directory>/resources.zip`,
included exactly when that file exists and silently omitted otherwise;
(3) a directory-backed store rooted at the platform user-data directory,
when a platform-directory resolver is available; (4) a directory-backed
store rooted at the platform user-config directory; no other backend is
added at construction. -/
theorem c2_new_builds_default_overlay (rootPath rdn rzn : String)
    (zipExists : Bool) (zipOpen : Except GameError ZipFS) (z : ZipFS)
    (dirs : Option ProjectDirs) (dR dD dC : List (VPath × VNode)) (w : World)
    (hz : zipExists = true → zipOpen = Except.ok z) :
    ∃ w' fs',
      Filesystem.newF rootPath rdn rzn zipExists zipOpen dirs dR dD dC w
        = .ok (w', fs')
      ∧ (w'.getOv fs'.vfsRef).backends
        = [VFSBackend.physical
             (PhysicalFS.new (rootPath ++ "/" ++ rdn) true dR)]
          ++ (if zipExists then [VFSBackend.zip z] else [])
          ++ (match dirs with
              | some d =>
                [VFSBackend.physical (PhysicalFS.new d.data_local_dir true dD),
                 VFSBackend.physical (PhysicalFS.new d.config_dir false dC)]
              | none => []) :=
  newF_backends rootPath rdn rzn zipExists zipOpen z dirs dR dD dC w hz

/-- Witness for C2 at concrete inputs (existing zip, resolver available). -/
theorem c2_new_builds_default_overlay_witness :
    (true = true → (Except.ok (⟨[]⟩ : ZipFS) : Except GameError ZipFS)
        = Except.ok ⟨[]⟩)
    ∧ ∃ w' fs',
      Filesystem.newF "/exe" "resources" "resources.zip" true
          (.ok ⟨[]⟩) (some ⟨"/data", "/config"⟩) [] [] [] ⟨[]⟩
        = .ok (w', fs')
      ∧ (w'.getOv fs'.vfsRef).backends
        = [VFSBackend.physical
             (PhysicalFS.new ("/exe" ++ "/" ++ "resources") true [])]
          ++ (if true then [VFSBackend.zip ⟨[]⟩] else [])
          ++ [VFSBackend.physical (PhysicalFS.new "/data" true []),
              VFSBackend.physical (PhysicalFS.new "/config" false [])] :=
  ⟨fun _ => rfl,
   c2_new_builds_default_overlay "/exe" "resources" "resources.zip" true
     (.ok ⟨[]⟩) ⟨[]⟩ (some ⟨"/data", "/config"⟩) [] [] [] ⟨[]⟩ (fun _ => rfl)⟩

/-- C1 as stated is false: in the default overlay the resources-directory
store and the user-data store are NOT writable.  The claim's flag pattern
(resources read-write, zip read-only, user-data read-write, user-config
read-write) fails on the concrete default build `c1Build`. -/
theorem c1_counterexample :
    ¬ (c1Backends.map VFSBackend.writable = [true, false, true, true]) := by
  intro hcl
  have h : c1Backends.map VFSBackend.writable = [false, false, false, true] :=
    rfl
  rw [h] at hcl
  simp at hcl

/-- C1 (amended): in the default overlay built by `Filesystem::new`, the
executable-adjacent `resources/` directory store is mounted read-only,
the `resources.zip` archive store is read-only, the platform user-data
directory store is mounted read-only, and only the platform user-config
directory store is mounted read-write. -/
theorem c1_default_mount_flags (rootPath rdn rzn : String)
    (zipExists : Bool) (zipOpen : Except GameError ZipFS) (z : ZipFS)
    (d : ProjectDirs) (dR dD dC : List (VPath × VNode)) (w : World)
    (hz : zipExists = true → zipOpen = Except.ok z) :
    ∃ w' fs',
      Filesystem.newF rootPath rdn rzn zipExists zipOpen (some d) dR dD dC w
        = .ok (w', fs')
      ∧ (w'.getOv fs'.vfsRef).backends.map VFSBackend.writable
        = [false] ++ (if zipExists then [false] else []) ++ [false, true] := by
  rcases newF_backends rootPath rdn rzn zipExists zipOpen z (some d)
      dR dD dC w hz with ⟨w', fs', h1, h2⟩
  refine ⟨w', fs', h1, ?_⟩
  rw [h2]
  cases zipExists <;>
    simp [VFSBackend.writable, PhysicalFS.new]

/-- Witness for the amended C1 at concrete inputs. -/
theorem c1_default_mount_flags_witness :
    (true = true → (Except.ok (⟨[]⟩ : ZipFS) : Except GameError ZipFS)
        = Except.ok ⟨[]⟩)
    ∧ ∃ w' fs',
      Filesystem.newF "/exe" "resources" "resources.zip" true
          (.ok ⟨[]⟩) (some ⟨"/data", "/config"⟩) [] [] [] ⟨[]⟩
        = .ok (w', fs')
      ∧ (w'.getOv fs'.vfsRef).backends.map VFSBackend.writable
        = [false] ++ (if true then [false] else []) ++ [false, true] :=
  ⟨fun _ => rfl,
   c1_default_mount_flags "/exe" "resources" "resources.zip" true
     (.ok ⟨[]⟩) ⟨[]⟩ ⟨"/data", "/config"⟩ [] [] [] ⟨[]⟩ (fun _ => rfl)⟩

theorem string_toList_append (a b : String) :
    (a ++ b).toList = a.toList ++ b.toList := by
  simp [String.toList, String.data_append]

/-- The wrapped `open_options` error message contains both the attempted
path and the rendered underlying error as substrings. -/
theorem openOptionsMsg_parts (p : VPath) (e : VfsError) :
    (∃ pre suf, (openOptionsMsg p e).toList = pre ++ p.toList ++ suf)
    ∧ (∃ pre suf, (openOptionsMsg p e).toList
        = pre ++ (VfsError.describe e).toList ++ suf) := by
  constructor
  · refine ⟨("Tried to open " : String).toList,
      (" but got error: " ++ e.describe).toList, ?_⟩
    simp [openOptionsMsg, string_toList_append, List.append_assoc]
  · refine ⟨("Tried to open " ++ p ++ " but got error: " : String).toList,
      [], ?_⟩
    simp [openOptionsMsg, string_toList_append]

/-- C3: for every path and options set, when the overlay-level open
fails, `Filesystem::open_options` returns a ResourceLoadError whose
message contains the attempted path together with the underlying error;
on success the opened handle is returned (wrapped in `File::VfsFile`)
unchanged. -/
theorem c3_open_options_wraps (w : World) (fs : Filesystem) (p : VPath)
    (opts : OpenOptions) :
    (∀ o f, (w.getOv fs.vfsRef).open_optionsO p opts = .ok (o, f) →
      Filesystem.open_optionsF w fs p opts
        = .ok (w.setOv fs.vfsRef o, File.vfsFile f))
    ∧ ∀ e, (w.getOv fs.vfsRef).open_optionsO p opts = .error e →
      Filesystem.open_optionsF w fs p opts
          = .error (.resourceLoadError (openOptionsMsg p e))
      ∧ (∃ pre suf, (openOptionsMsg p e).toList = pre ++ p.toList ++ suf)
      ∧ (∃ pre suf, (openOptionsMsg p e).toList
          = pre ++ (VfsError.describe e).toList ++ suf) := by
  constructor
  · intro o f h
    simp [Filesystem.open_optionsF, h]
  · intro e h
    exact ⟨by simp [Filesystem.open_optionsF, h],
      (openOptionsMsg_parts p e).1, (openOptionsMsg_parts p e).2⟩

/-- Witness for C3, exercising both the failing branch (empty overlay)
and the succeeding branch (a resolvable read-only open). -/
theorem c3_open_options_wraps_witness :
    ((wOne.getOv fsOne.vfsRef).open_optionsO "/a"
        ⟨true, false, false, false, false⟩ = .error (.notFound "/a"))
    ∧ (Filesystem.open_optionsF wOne fsOne "/a"
          ⟨true, false, false, false, false⟩
        = .error (.resourceLoadError (openOptionsMsg "/a" (.notFound "/a")))
      ∧ (∃ pre suf, (openOptionsMsg "/a" (.notFound "/a")).toList
          = pre ++ ("/a" : String).toList ++ suf)
      ∧ (∃ pre suf, (openOptionsMsg "/a" (.notFound "/a")).toList
          = pre ++ (VfsError.describe (.notFound "/a")).toList ++ suf))
    ∧ ((wRead.getOv fsOne.vfsRef).open_optionsO "/a.png"
        ⟨true, false, false, false, false⟩
        = .ok (wRead.getOv fsOne.vfsRef,
               ⟨0, "/a.png", ⟨true, false, false, false, false⟩⟩))
    ∧ Filesystem.open_optionsF wRead fsOne "/a.png"
          ⟨true, false, false, false, false⟩
        = .ok (wRead.setOv fsOne.vfsRef (wRead.getOv fsOne.vfsRef),
               File.vfsFile ⟨0, "/a.png", ⟨true, false, false, false, false⟩⟩) :=
  ⟨rfl,
   (c3_open_options_wraps wOne fsOne "/a"
     ⟨true, false, false, false, false⟩).2 (.notFound "/a") rfl,
   rfl,
   (c3_open_options_wraps wRead fsOne "/a.png"
     ⟨true, false, false, false, false⟩).1 (wRead.getOv fsOne.vfsRef)
     ⟨0, "/a.png", ⟨true, false, false, false, false⟩⟩ rfl⟩

/-- C4: `exists`, `is_file` and `is_dir` return a boolean and never
propagate an error: a failing metadata probe collapses `is_file`/`is_dir`
to false, and a path absent from every backend collapses `exists` to
false. -/
theorem c4_bool_queries_collapse (w : World) (fs : Filesystem) (p : VPath) :
    (∀ e, (w.getOv fs.vfsRef).metadataO p = .error e →
      Filesystem.is_fileF w fs p = false ∧ Filesystem.is_dirF w fs p = false)
    ∧ ((∀ b ∈ (w.getOv fs.vfsRef).backends, b.existsB p = false) →
      Filesystem.existsF w fs p = false) := by
  constructor
  · intro e h
    constructor <;>
      simp [Filesystem.is_fileF, Filesystem.is_dirF, h, Except.map,
        Except.toOption]
  · intro h
    simp only [Filesystem.existsF, OverlayFS.existsO, List.any_eq_false]
    intro b hb
    simp [h b hb]

/-- Witness for C4 on the empty overlay, where the metadata probe fails
with NotFound. -/
theorem c4_bool_queries_collapse_witness :
    ((wOne.getOv fsOne.vfsRef).metadataO "/x" = .error (.notFound "/x"))
    ∧ (Filesystem.is_fileF wOne fsOne "/x" = false
        ∧ Filesystem.is_dirF wOne fsOne "/x" = false)
    ∧ Filesystem.existsF wOne fsOne "/x" = false :=
  ⟨rfl,
   (c4_bool_queries_collapse wOne fsOne "/x").1 (.notFound "/x") rfl,
   (c4_bool_queries_collapse wOne fsOne "/x").2
     (by simp [wOne, World.getOv])⟩

/-- C8: a clone of a `Filesystem` shares the same underlying overlay:
after mounting a new backend (directory via `mount` or archive via
`add_zip_file`) through one handle, a lookup through a clone of that
handle observes the newly mounted backend. -/
theorem c8_clone_shares_overlay (w : World) (fs : Filesystem)
    (rpath : String) (ro : Bool) (disk : List (VPath × VNode))
    (p q : VPath) (z : ZipFS)
    (h : fs.vfsRef < w.cells.length)
    (hp : (VFSBackend.physical (PhysicalFS.new rpath ro disk)).existsB p
      = true)
    (hq : (VFSBackend.zip z).existsB q = true) :
    (Filesystem.clone fs).vfsRef = fs.vfsRef
    ∧ Filesystem.existsF (Filesystem.mountF w fs rpath ro disk)
        (Filesystem.clone fs) p = true
    ∧ ∀ w', Filesystem.add_zip_fileF w fs (.ok z) = .ok w' →
        Filesystem.existsF w' (Filesystem.clone fs) q = true := by
  have hcl : (Filesystem.clone fs).vfsRef = fs.vfsRef := rfl
  refine ⟨rfl, ?_, ?_⟩
  · unfold Filesystem.existsF Filesystem.mountF
    rw [hcl, World.getOv_setOv _ _ _ h]
    simp [OverlayFS.existsO, OverlayFS.push_back, List.any_append, hp]
  · intro w' hw'
    have hw'eq : w'
        = w.setOv fs.vfsRef ((w.getOv fs.vfsRef).push_back (.zip z)) := by
      have := hw'
      simp [Filesystem.add_zip_fileF] at this
      exact this.symm
    subst hw'eq
    unfold Filesystem.existsF
    rw [hcl, World.getOv_setOv _ _ _ h]
    simp [OverlayFS.existsO, OverlayFS.push_back, List.any_append, hq]

/-- Witness for C8 with a one-cell world, a one-file mounted directory
and a one-entry zip. -/
theorem c8_clone_shares_overlay_witness :
    (0 < 1 ∧ (VFSBackend.physical
        (PhysicalFS.new "/m" false [("/p.txt", .file [3])])).existsB "/p.txt"
        = true
      ∧ (VFSBackend.zip zOne).existsB "/q.png" = true)
    ∧ (Filesystem.clone fsOne).vfsRef = fsOne.vfsRef
    ∧ Filesystem.existsF
        (Filesystem.mountF wOne fsOne "/m" false [("/p.txt", .file [3])])
        (Filesystem.clone fsOne) "/p.txt" = true
    ∧ Filesystem.existsF wZipped (Filesystem.clone fsOne) "/q.png" = true :=
  ⟨⟨by decide, by decide, by decide⟩,
   (c8_clone_shares_overlay wOne fsOne "/m" false [("/p.txt", .file [3])]
     "/p.txt" "/q.png" zOne (by decide) (by decide) (by decide)).1,
   (c8_clone_shares_overlay wOne fsOne "/m" false [("/p.txt", .file [3])]
     "/p.txt" "/q.png" zOne (by decide) (by decide) (by decide)).2.1,
   (c8_clone_shares_overlay wOne fsOne "/m" false [("/p.txt", .file [3])]
     "/p.txt" "/q.png" zOne (by decide) (by decide) (by decide)).2.2
     wZipped rfl⟩

/-- C9: `mount` appends a directory-backed store over the given real
path as the lowest-priority backend, and `add_zip_file` appends an
archive-backed store the same way; neither changes the relative order of
the backends already present. -/
theorem c9_mount_appends_lowest_priority (w : World) (fs : Filesystem)
    (rpath : String) (ro : Bool) (disk : List (VPath × VNode))
    (h : fs.vfsRef < w.cells.length) :
    (((Filesystem.mountF w fs rpath ro disk).getOv fs.vfsRef).backends
        = (w.getOv fs.vfsRef).backends
          ++ [VFSBackend.physical (PhysicalFS.new rpath ro disk)])
    ∧ ∀ z : ZipFS, ∃ w',
        Filesystem.add_zip_fileF w fs (.ok z) = .ok w'
        ∧ (w'.getOv fs.vfsRef).backends
            = (w.getOv fs.vfsRef).backends ++ [VFSBackend.zip z] := by
  constructor
  · unfold Filesystem.mountF
    rw [World.getOv_setOv _ _ _ h]
    rfl
  · intro z
    refine ⟨_, rfl, ?_⟩
    rw [World.getOv_setOv _ _ _ h]
    rfl

/-- Witness for C9 on a one-cell world. -/
theorem c9_mount_appends_lowest_priority_witness :
    0 < 1
    ∧ (((Filesystem.mountF wOne fsOne "/m" true []).getOv
          fsOne.vfsRef).backends
        = (wOne.getOv fsOne.vfsRef).backends
          ++ [VFSBackend.physical (PhysicalFS.new "/m" true [])])
    ∧ ∃ w', Filesystem.add_zip_fileF wOne fsOne (.ok zOne) = .ok w'
        ∧ (w'.getOv fsOne.vfsRef).backends
            = (wOne.getOv fsOne.vfsRef).backends ++ [VFSBackend.zip zOne] :=
  ⟨by decide,
   (c9_mount_appends_lowest_priority wOne fsOne "/m" true [] (by decide)).1,
   (c9_mount_appends_lowest_priority wOne fsOne "/m" true [] (by decide)).2
     zOne⟩

theorem readDirConsume_of_mem_error
    (entries : List (Except VfsError VPath))
    (he : ∃ e, Except.error e ∈ entries) : readDirConsume entries = none := by
  rcases he with ⟨e, he⟩
  induction entries with
  | nil => simp at he
  | cons x rest ih =>
    cases x with
    | error e' => rfl
    | ok v =>
      have h2 : Except.error e ∈ rest := by
        rcases List.mem_cons.mp he with h1 | h2
        · exact absurd h1 (by simp)
        · exact h2
      simp [readDirConsume, ih h2]

theorem readDirConsume_ok_mem :
    ∀ (entries : List (Except VfsError VPath)) l,
      readDirConsume entries = some l →
      ∀ x ∈ entries, ∃ v, x = Except.ok v := by
  intro entries
  induction entries with
  | nil => intro l _ x hx; simp at hx
  | cons y rest ih =>
    intro l hl x hx
    cases y with
    | error e => simp [readDirConsume] at hl
    | ok v =>
      rcases List.mem_cons.mp hx with h1 | h2
      · exact ⟨v, h1⟩
      · rw [readDirConsume] at hl
        cases hr : readDirConsume rest with
        | none => rw [hr] at hl; simp at hl
        | some l' => exact ih l' hr x h2

/-- C10: when `Filesystem::read_dir` returns Ok, consuming the returned
iterator panics (modelled as `none`) if any underlying directory entry
yields an error; a fully consumed listing contains only successful
entries, so per-entry errors are never surfaced as return values. -/
theorem c10_read_dir_consume_panics
    (entries : List (Except VfsError VPath)) :
    ((∃ e, Except.error e ∈ entries) → readDirConsume entries = none)
    ∧ (∀ l, readDirConsume entries = some l →
        ∀ x ∈ entries, ∃ v, x = Except.ok v)
    ∧ (∀ (w : World) (fs : Filesystem) (p : VPath),
        Filesystem.read_dirF w fs p
          = (((w.getOv fs.vfsRef).readDirO p).map readDirConsume).mapError
              mapVfs) :=
  ⟨readDirConsume_of_mem_error entries,
   readDirConsume_ok_mem entries,
   fun _ _ _ => rfl⟩

/-- Witness for C10: one erroneous entry makes consumption panic. -/
theorem c10_read_dir_consume_panics_witness :
    (∃ e, Except.error e
        ∈ [Except.error (VfsError.ioFailure "boom"), Except.ok ("/a" : VPath)])
    ∧ readDirConsume
        [Except.error (VfsError.ioFailure "boom"), Except.ok ("/a" : VPath)]
        = none :=
  ⟨⟨.ioFailure "boom", by simp⟩,
   (c10_read_dir_consume_panics _).1 ⟨.ioFailure "boom", by simp⟩⟩

/-- C5: `read_config` returns a ConfigError when `/conf.toml` does not
resolve to a file in the overlay; when it does, it opens it through the
generic open and returns the parsed configuration, propagating any open
or parse failure. -/
theorem c5_read_config (Conf : Type)
    (fromToml : Bytes → Except GameError Conf) (w : World)
    (fs : Filesystem) :
    (Filesystem.is_fileF w fs CONFIG_NAME = false →
      Filesystem.read_configF fromToml w fs
        = .error (.configError "Config file not found"))
    ∧ (Filesystem.is_fileF w fs CONFIG_NAME = true →
      (∀ e, Filesystem.openF w fs CONFIG_NAME = .error e →
        Filesystem.read_configF fromToml w fs = .error e)
      ∧ ∀ bs, Filesystem.openF w fs CONFIG_NAME = .ok bs →
        Filesystem.read_configF fromToml w fs = fromToml bs) := by
  constructor
  · intro h
    simp [Filesystem.read_configF, h]
  · intro h
    constructor
    · intro e he
      simp [Filesystem.read_configF, h, he]
    · intro bs hbs
      simp [Filesystem.read_configF, h, hbs]

/-- Witness for C5 on the empty overlay (config absent). -/
theorem c5_read_config_witness :
    Filesystem.is_fileF wOne fsOne CONFIG_NAME = false
    ∧ Filesystem.read_configF natFromToml wOne fsOne
        = .error (.configError "Config file not found") :=
  ⟨rfl, (c5_read_config Nat natFromToml wOne fsOne).1 rfl⟩

/-- C6: `write_config` creates `/conf.toml` through the generic create
(truncating), writes the serialized configuration, and (given that the
create and the serialization succeed) returns Ok exactly when a
post-write `is_file` check on `/conf.toml` succeeds, returning a
ConfigError naming the path otherwise. -/
theorem c6_write_config (Conf : Type)
    (toToml : Conf → Except GameError Bytes) (w : World) (fs : Filesystem)
    (c : Conf) (w1 : World) (h : FileHandle) (bs : Bytes)
    (hc : Filesystem.createF w fs CONFIG_NAME = .ok (w1, h))
    (hs : toToml c = .ok bs) :
    (Filesystem.write_configF toToml w fs c
        = .ok (Filesystem.writeFileF w1 fs h bs)
      ↔ Filesystem.is_fileF (Filesystem.writeFileF w1 fs h bs) fs CONFIG_NAME
          = true)
    ∧ (Filesystem.is_fileF (Filesystem.writeFileF w1 fs h bs) fs CONFIG_NAME
          = false →
      Filesystem.write_configF toToml w fs c
        = .error (.configError
            ("Failed to write config file at " ++ CONFIG_NAME))
      ∧ ∃ pre suf, ("Failed to write config file at " ++ CONFIG_NAME).toList
          = pre ++ CONFIG_NAME.toList ++ suf) := by
  have hunf : Filesystem.write_configF toToml w fs c
      = if Filesystem.is_fileF (Filesystem.writeFileF w1 fs h bs) fs
            CONFIG_NAME
        then .ok (Filesystem.writeFileF w1 fs h bs)
        else .error (.configError
          ("Failed to write config file at " ++ CONFIG_NAME)) := by
    simp [Filesystem.write_configF, hc, hs]
  cases hf : Filesystem.is_fileF (Filesystem.writeFileF w1 fs h bs) fs
      CONFIG_NAME with
  | true =>
    constructor
    · simp [hunf, hf]
    · intro hfalse
      exact absurd hfalse (by simp)
  | false =>
    constructor
    · simp [hunf, hf]
    · intro _
      refine ⟨by simp [hunf, hf], ?_⟩
      exact ⟨("Failed to write config file at " : String).toList, [],
        by simp [string_toList_append]⟩

/-- Witness for C6: a concrete create into the writable store, after
which the post-write check succeeds. -/
theorem c6_write_config_witness :
    (Filesystem.createF wCfg fsOne CONFIG_NAME = .ok (wCfg1, ⟨1, CONFIG_NAME⟩))
    ∧ (natToToml 5 = .ok [5])
    ∧ (Filesystem.write_configF natToToml wCfg fsOne 5
        = .ok (Filesystem.writeFileF wCfg1 fsOne ⟨1, CONFIG_NAME⟩ [5])
      ↔ Filesystem.is_fileF
          (Filesystem.writeFileF wCfg1 fsOne ⟨1, CONFIG_NAME⟩ [5]) fsOne
          CONFIG_NAME = true) :=
  ⟨rfl, rfl,
   (c6_write_config Nat natToToml wCfg fsOne 5 wCfg1 ⟨1, CONFIG_NAME⟩ [5]
     rfl rfl).1⟩

theorem PhysicalFS.readonly_setFile (fs : PhysicalFS) (p : VPath)
    (d : Bytes) : (fs.setFile p d).readonly = fs.readonly := rfl

/-- C7: for every configuration value c, `write_config(c)` followed by
`read_config()` returns c (under the hypothesis that the external TOML
serializer and parser are mutually inverse), and deleting `/conf.toml`
afterwards makes `read_config` fail with ConfigError.  Stated over any
overlay that does not yet hold `/conf.toml` and has a writable backend. -/
theorem c7_config_roundtrip (Conf : Type)
    (toToml : Conf → Except GameError Bytes)
    (fromToml : Bytes → Except GameError Conf)
    (w : World) (fs : Filesystem) (c : Conf) (bs : Bytes)
    (href : fs.vfsRef < w.cells.length)
    (habs : ∀ b ∈ (w.getOv fs.vfsRef).backends,
      b.lookupNode CONFIG_NAME = none)
    (hwr : ∃ b ∈ (w.getOv fs.vfsRef).backends, b.writable = true)
    (hser : toToml c = .ok bs)
    (hinv : fromToml bs = .ok c) :
    ∃ w2, Filesystem.write_configF toToml w fs c = .ok w2
      ∧ Filesystem.read_configF fromToml w2 fs = .ok c
      ∧ ∃ w3, Filesystem.deleteF w2 fs CONFIG_NAME = .ok w3
          ∧ Filesystem.read_configF fromToml w3 fs
              = .error (.configError "Config file not found") := by
  rcases createAux_decomp CONFIG_NAME (w.getOv fs.vfsRef).backends habs hwr
    with ⟨pre, f, rest, heq, hpre, hro, hca⟩
  have habs_pre : ∀ b ∈ pre, b.lookupNode CONFIG_NAME = none := by
    intro b hb
    exact habs b (by rw [heq]; exact List.mem_append.mpr (Or.inl hb))
  have habs_rest : ∀ b ∈ rest, b.lookupNode CONFIG_NAME = none := by
    intro b hb
    exact habs b
      (by rw [heq]
          exact List.mem_append.mpr (Or.inr (List.mem_cons_of_mem _ hb)))
  -- the overlay produced by create, and the one after the handle write
  have hcreate : Filesystem.createF w fs CONFIG_NAME
      = .ok (w.setOv fs.vfsRef
               ⟨pre ++ VFSBackend.physical (f.setFile CONFIG_NAME [])
                  :: rest⟩,
             ⟨pre.length, CONFIG_NAME⟩) := by
    simp [Filesystem.createF, OverlayFS.createO, hca, Except.map]
  have hlen1 : fs.vfsRef
      < (w.setOv fs.vfsRef
          ⟨pre ++ VFSBackend.physical (f.setFile CONFIG_NAME [])
             :: rest⟩).cells.length := by
    rw [World.setOv_cells_length]; exact href
  have happend : (f.setFile CONFIG_NAME []).appendFile CONFIG_NAME bs
      = (f.setFile CONFIG_NAME []).setFile CONFIG_NAME bs := by
    simp [PhysicalFS.appendFile, PhysicalFS.lookup_setFile]
  have hw2 : Filesystem.writeFileF
      (w.setOv fs.vfsRef
        ⟨pre ++ VFSBackend.physical (f.setFile CONFIG_NAME []) :: rest⟩)
      fs ⟨pre.length, CONFIG_NAME⟩ bs
      = (w.setOv fs.vfsRef
          ⟨pre ++ VFSBackend.physical (f.setFile CONFIG_NAME []) :: rest⟩).setOv
          fs.vfsRef
          ⟨pre ++ VFSBackend.physical
              ((f.setFile CONFIG_NAME []).setFile CONFIG_NAME bs) :: rest⟩ := by
    unfold Filesystem.writeFileF
    rw [World.getOv_setOv _ _ _ href]
    unfold OverlayFS.writeHandle
    rw [show (⟨pre.length, CONFIG_NAME⟩ : FileHandle).backend = pre.length
          from rfl,
        show (⟨pre.length, CONFIG_NAME⟩ : FileHandle).path = CONFIG_NAME
          from rfl,
        modifyIdx_append_cons]
    simp [VFSBackend.writeAt, happend]
  have hlen2 : fs.vfsRef
      < ((w.setOv fs.vfsRef
          ⟨pre ++ VFSBackend.physical (f.setFile CONFIG_NAME []) :: rest⟩).setOv
          fs.vfsRef
          ⟨pre ++ VFSBackend.physical
              ((f.setFile CONFIG_NAME []).setFile CONFIG_NAME bs)
             :: rest⟩).cells.length := by
    rw [World.setOv_cells_length, World.setOv_cells_length]; exact href
  have hw2get : ((w.setOv fs.vfsRef
        ⟨pre ++ VFSBackend.physical (f.setFile CONFIG_NAME []) :: rest⟩).setOv
        fs.vfsRef
        ⟨pre ++ VFSBackend.physical
            ((f.setFile CONFIG_NAME []).setFile CONFIG_NAME bs)
           :: rest⟩).getOv fs.vfsRef
      = ⟨pre ++ VFSBackend.physical
            ((f.setFile CONFIG_NAME []).setFile CONFIG_NAME bs) :: rest⟩ :=
    World.getOv_setOv _ _ _ hlen1
  have hlook2 : ((f.setFile CONFIG_NAME []).setFile CONFIG_NAME bs).lookup
      CONFIG_NAME = some (.file bs) :=
    PhysicalFS.lookup_setFile _ _ _
  have hmeta2 : OverlayFS.metadataO
      (⟨pre ++ VFSBackend.physical
          ((f.setFile CONFIG_NAME []).setFile CONFIG_NAME bs) :: rest⟩ :
        OverlayFS) CONFIG_NAME
      = .ok (VNode.file bs).metadata := by
    unfold OverlayFS.metadataO
    rw [readResolve_append VFSBackend.metadataB CONFIG_NAME pre _
      (fun b hb => VFSBackend.metadataB_of_none b _ (habs_pre b hb))]
    simp [readResolve, VFSBackend.metadataB, VFSBackend.lookupNode, hlook2]
  have hopen2 : OverlayFS.openO
      (⟨pre ++ VFSBackend.physical
          ((f.setFile CONFIG_NAME []).setFile CONFIG_NAME bs) :: rest⟩ :
        OverlayFS) CONFIG_NAME = .ok bs := by
    unfold OverlayFS.openO
    rw [readResolve_append VFSBackend.openB CONFIG_NAME pre _
      (fun b hb => VFSBackend.openB_of_none b _ (habs_pre b hb))]
    simp [readResolve, VFSBackend.openB, VFSBackend.lookupNode, hlook2]
  have hisfile2 : Filesystem.is_fileF
      ((w.setOv fs.vfsRef
        ⟨pre ++ VFSBackend.physical (f.setFile CONFIG_NAME []) :: rest⟩).setOv
        fs.vfsRef
        ⟨pre ++ VFSBackend.physical
            ((f.setFile CONFIG_NAME []).setFile CONFIG_NAME bs) :: rest⟩)
      fs CONFIG_NAME = true := by
    unfold Filesystem.is_fileF
    rw [hw2get, hmeta2]
    simp [Except.map, Except.toOption, VNode.metadata]
  have hwc : Filesystem.write_configF toToml w fs c
      = .ok ((w.setOv fs.vfsRef
          ⟨pre ++ VFSBackend.physical (f.setFile CONFIG_NAME []) :: rest⟩).setOv
          fs.vfsRef
          ⟨pre ++ VFSBackend.physical
              ((f.setFile CONFIG_NAME []).setFile CONFIG_NAME bs)
             :: rest⟩) := by
    unfold Filesystem.write_configF
    simp only [hcreate, hser]
    rw [hw2, if_pos hisfile2]
  have hofF : Filesystem.openF
      ((w.setOv fs.vfsRef
        ⟨pre ++ VFSBackend.physical (f.setFile CONFIG_NAME []) :: rest⟩).setOv
        fs.vfsRef
        ⟨pre ++ VFSBackend.physical
            ((f.setFile CONFIG_NAME []).setFile CONFIG_NAME bs) :: rest⟩)
      fs CONFIG_NAME = .ok bs := by
    unfold Filesystem.openF
    rw [hw2get, hopen2]
    rfl
  have hrc2 : Filesystem.read_configF fromToml
      ((w.setOv fs.vfsRef
        ⟨pre ++ VFSBackend.physical (f.setFile CONFIG_NAME []) :: rest⟩).setOv
        fs.vfsRef
        ⟨pre ++ VFSBackend.physical
            ((f.setFile CONFIG_NAME []).setFile CONFIG_NAME bs) :: rest⟩)
      fs = .ok c := by
    unfold Filesystem.read_configF
    rw [if_pos hisfile2]
    simp only [hofF]
    exact hinv
  -- deleting the config file
  have hro2 : ((f.setFile CONFIG_NAME []).setFile CONFIG_NAME bs).readonly
      = false := by
    rw [PhysicalFS.readonly_setFile, PhysicalFS.readonly_setFile]; exact hro
  have hnedir : ((((f.setFile CONFIG_NAME []).setFile CONFIG_NAME bs).lookup
      CONFIG_NAME == some VNode.dir) : Bool) = false := by
    rw [hlook2]
    simp [beq_eq_false_iff_ne]
  have hrm2 : rmAux (VFSBackend.physical
        ((f.setFile CONFIG_NAME []).setFile CONFIG_NAME bs) :: rest)
      CONFIG_NAME
      = .ok (VFSBackend.physical
          (((f.setFile CONFIG_NAME []).setFile CONFIG_NAME bs).remove
            CONFIG_NAME) :: rest) := by
    simp [rmAux, hlook2, hro2, hnedir]
  have hrm : rmAux (pre ++ VFSBackend.physical
        ((f.setFile CONFIG_NAME []).setFile CONFIG_NAME bs) :: rest)
      CONFIG_NAME
      = .ok (pre ++ VFSBackend.physical
          (((f.setFile CONFIG_NAME []).setFile CONFIG_NAME bs).remove
            CONFIG_NAME) :: rest) := by
    rw [rmAux_append CONFIG_NAME pre _ habs_pre, hrm2]
    rfl
  have hdel : Filesystem.deleteF
      ((w.setOv fs.vfsRef
        ⟨pre ++ VFSBackend.physical (f.setFile CONFIG_NAME []) :: rest⟩).setOv
        fs.vfsRef
        ⟨pre ++ VFSBackend.physical
            ((f.setFile CONFIG_NAME []).setFile CONFIG_NAME bs) :: rest⟩)
      fs CONFIG_NAME
      = .ok (((w.setOv fs.vfsRef
          ⟨pre ++ VFSBackend.physical (f.setFile CONFIG_NAME []) :: rest⟩).setOv
          fs.vfsRef
          ⟨pre ++ VFSBackend.physical
              ((f.setFile CONFIG_NAME []).setFile CONFIG_NAME bs)
             :: rest⟩).setOv fs.vfsRef
          ⟨pre ++ VFSBackend.physical
              (((f.setFile CONFIG_NAME []).setFile CONFIG_NAME bs).remove
                CONFIG_NAME) :: rest⟩) := by
    unfold Filesystem.deleteF OverlayFS.rmO
    rw [hw2get]
    rw [show (⟨pre ++ VFSBackend.physical
        ((f.setFile CONFIG_NAME []).setFile CONFIG_NAME bs) :: rest⟩ :
        OverlayFS).backends
      = pre ++ VFSBackend.physical
          ((f.setFile CONFIG_NAME []).setFile CONFIG_NAME bs) :: rest
      from rfl, hrm]
    rfl
  have hlen3 : fs.vfsRef
      < (((w.setOv fs.vfsRef
          ⟨pre ++ VFSBackend.physical (f.setFile CONFIG_NAME []) :: rest⟩).setOv
          fs.vfsRef
          ⟨pre ++ VFSBackend.physical
              ((f.setFile CONFIG_NAME []).setFile CONFIG_NAME bs)
             :: rest⟩)).cells.length := hlen2
  have hw3get : ((((w.setOv fs.vfsRef
        ⟨pre ++ VFSBackend.physical (f.setFile CONFIG_NAME []) :: rest⟩).setOv
        fs.vfsRef
        ⟨pre ++ VFSBackend.physical
            ((f.setFile CONFIG_NAME []).setFile CONFIG_NAME bs)
           :: rest⟩).setOv fs.vfsRef
        ⟨pre ++ VFSBackend.physical
            (((f.setFile CONFIG_NAME []).setFile CONFIG_NAME bs).remove
              CONFIG_NAME) :: rest⟩)).getOv fs.vfsRef
      = ⟨pre ++ VFSBackend.physical
          (((f.setFile CONFIG_NAME []).setFile CONFIG_NAME bs).remove
            CONFIG_NAME) :: rest⟩ :=
    World.getOv_setOv _ _ _ hlen3
  have hnone3 : ∀ b ∈ (pre ++ VFSBackend.physical
        (((f.setFile CONFIG_NAME []).setFile CONFIG_NAME bs).remove
          CONFIG_NAME) :: rest), b.lookupNode CONFIG_NAME = none := by
    intro b hb
    rcases List.mem_append.mp hb with h1 | h1
    · exact habs_pre b h1
    · rcases List.mem_cons.mp h1 with h2 | h2
      · subst h2
        simp [VFSBackend.lookupNode, PhysicalFS.lookup_remove]
      · exact habs_rest b h2
  have hmeta3 : OverlayFS.metadataO
      (⟨pre ++ VFSBackend.physical
          (((f.setFile CONFIG_NAME []).setFile CONFIG_NAME bs).remove
            CONFIG_NAME) :: rest⟩ : OverlayFS) CONFIG_NAME
      = .error (.notFound CONFIG_NAME) :=
    readResolve_all_notFound VFSBackend.metadataB CONFIG_NAME _
      (fun b hb => VFSBackend.metadataB_of_none b _ (hnone3 b hb))
  have hisfile3 : Filesystem.is_fileF
      (((w.setOv fs.vfsRef
        ⟨pre ++ VFSBackend.physical (f.setFile CONFIG_NAME []) :: rest⟩).setOv
        fs.vfsRef
        ⟨pre ++ VFSBackend.physical
            ((f.setFile CONFIG_NAME []).setFile CONFIG_NAME bs)
           :: rest⟩).setOv fs.vfsRef
        ⟨pre ++ VFSBackend.physical
            (((f.setFile CONFIG_NAME []).setFile CONFIG_NAME bs).remove
              CONFIG_NAME) :: rest⟩)
      fs CONFIG_NAME = false := by
    unfold Filesystem.is_fileF
    rw [hw3get, hmeta3]
    rfl
  refine ⟨_, hwc, hrc2, _, hdel, ?_⟩
  unfold Filesystem.read_configF
  rw [if_neg (by rw [hisfile3]; exact Bool.false_ne_true)]

/-- Witness for C7 on `wCfg` (archive store in front, writable directory
store behind, config initially absent) with the `Nat` codec. -/
theorem c7_config_roundtrip_witness :
    ((∀ b ∈ (wCfg.getOv fsOne.vfsRef).backends,
        b.lookupNode CONFIG_NAME = none)
      ∧ (∃ b ∈ (wCfg.getOv fsOne.vfsRef).backends, b.writable = true)
      ∧ natToToml 5 = .ok [5] ∧ natFromToml [5] = .ok 5)
    ∧ ∃ w2, Filesystem.write_configF natToToml wCfg fsOne 5 = .ok w2
        ∧ Filesystem.read_configF natFromToml w2 fsOne = .ok 5
        ∧ ∃ w3, Filesystem.deleteF w2 fsOne CONFIG_NAME = .ok w3
            ∧ Filesystem.read_configF natFromToml w3 fsOne
                = .error (.configError "Config file not found") :=
  ⟨⟨by decide, by decide, rfl, rfl⟩,
   c7_config_roundtrip Nat natToToml natFromToml wCfg fsOne 5 [5]
     (by decide) (by decide) (by decide) rfl rfl⟩
